import Mathlib

/-!
Verification of the risk-control core of the ibkr_quant_core repository.

Shallow embedding, in order of the source:
* `src/src/execution.py` — `ExecutionManager.check_order_limits`, the
  fat-finger order validator;
* `src/strategies/base_strategy.py` — `BaseStrategy` (take-profit logic,
  entry-price bookkeeping, position sizing);
* `src/src/backtesting_extensions.py` — `CustomBroker._adjusted_price`,
  the commission-aware price-estimation adapter.

Python floats are embedded as `ℚ`; a Python dict of order details is a
structure whose field defaults are the `dict.get` defaults used by the code
(a missing key behaves exactly like the default value).  A Python function
that either returns or raises is embedded as `Except`.
-/

namespace IbkrQuantCore

/-! ## Order validation: `ExecutionManager` (src/src/execution.py) -/

/-- Hard limit `MAX_SHARES_PER_ORDER = 100` (execution.py line 15). -/
def MAX_SHARES_PER_ORDER : ℚ := 100

/-- Hard limit `MAX_DOLLAR_VALUE_PER_ORDER = 5000.0` (execution.py line 16). -/
def MAX_DOLLAR_VALUE_PER_ORDER : ℚ := 5000

/-- Hard limit `MAX_PRICE_DEVIATION_PERCENT = 0.05` (execution.py line 17). -/
def MAX_PRICE_DEVIATION_PERCENT : ℚ := 5 / 100

/-- The order dictionary consumed by `check_order_limits`.  Field defaults are
the `dict.get` defaults of execution.py lines 38-41, so "key missing from the
dict" is represented by the default value: `symbol` defaults to `"UNKNOWN"`,
`quantity` to `0`, `order_type` to `"MKT"`, `limit_price` to `0.0`. -/
structure OrderDetails where
  symbol : String := "UNKNOWN"
  quantity : ℚ := 0
  order_type : String := "MKT"
  limit_price : ℚ := 0
deriving DecidableEq

/-- The kind of safety violation surfaced by a `ValueError` raised in
`check_order_limits`: quantity check (line 44), dollar-value check (line 57),
fat-finger price-deviation check (line 66). -/
inductive ViolationKind
  | QuantityExceeded
  | NotionalExceeded
  | PriceDeviationExceeded
deriving DecidableEq

/-- The diagnostic content of a raised `ValueError` message: every message in
execution.py names the symbol, the offending value (quantity, estimated dollar
value, or deviation) and the configured limit it exceeds. -/
structure Violation where
  kind : ViolationKind
  symbol : String
  value : ℚ
  limit : ℚ
deriving DecidableEq

/-- `order_type in ['LMT', 'STOP_LIMIT']` (execution.py lines 51 and 64). -/
def isLimitType (order_type : String) : Bool :=
  order_type == "LMT" || order_type == "STOP_LIMIT"

/-- The execution price used for the dollar-value estimate, execution.py
lines 51-53:
`exec_price = limit_price if order_type in ['LMT', 'STOP_LIMIT'] else current_price`
followed by `if exec_price is None or exec_price == 0: exec_price = current_price`.
(In this embedding a missing or `None` limit price is the `dict.get` default
`0`, so only the `== 0` arm of the guard is represented.) -/
def execPrice (o : OrderDetails) (current_price : ℚ) : ℚ :=
  let p := if isLimitType o.order_type then o.limit_price else current_price
  if p = 0 then current_price else p

/-- `ExecutionManager.check_order_limits(order_details, current_price)`
(execution.py lines 22-75).  Returns `.ok true` where the Python returns
`True`, and `.error v` where the Python raises `ValueError` with a message
whose diagnostic content is `v`.  The three checks run in source order:
max shares, max dollar value, fat-finger price deviation (the last one only
for limit-type orders with positive limit price, and skipped when
`current_price` is not positive to avoid dividing by zero). -/
def check_order_limits (o : OrderDetails) (current_price : ℚ) :
    Except Violation Bool :=
  if o.quantity > MAX_SHARES_PER_ORDER then
    Except.error
      ⟨ViolationKind.QuantityExceeded, o.symbol, o.quantity, MAX_SHARES_PER_ORDER⟩
  else if execPrice o current_price * o.quantity > MAX_DOLLAR_VALUE_PER_ORDER then
    Except.error
      ⟨ViolationKind.NotionalExceeded, o.symbol,
        execPrice o current_price * o.quantity, MAX_DOLLAR_VALUE_PER_ORDER⟩
  else if isLimitType o.order_type = true ∧ o.limit_price > 0 then
    if current_price > 0 then
      if |o.limit_price - current_price| / current_price >
          MAX_PRICE_DEVIATION_PERCENT then
        Except.error
          ⟨ViolationKind.PriceDeviationExceeded, o.symbol,
            |o.limit_price - current_price| / current_price,
            MAX_PRICE_DEVIATION_PERCENT⟩
      else Except.ok true
    else Except.ok true
  else Except.ok true

/-- The quantity threshold of check 1 is violated (execution.py line 44). -/
def violQty (o : OrderDetails) : Prop :=
  o.quantity > MAX_SHARES_PER_ORDER

/-- The notional threshold of check 2 is violated (execution.py line 57). -/
def violNotional (o : OrderDetails) (current_price : ℚ) : Prop :=
  execPrice o current_price * o.quantity > MAX_DOLLAR_VALUE_PER_ORDER

/-- The price-deviation threshold of check 3 is violated, including the
applicability conditions of lines 64-66. -/
def violDev (o : OrderDetails) (current_price : ℚ) : Prop :=
  isLimitType o.order_type = true ∧ o.limit_price > 0 ∧ current_price > 0 ∧
    |o.limit_price - current_price| / current_price > MAX_PRICE_DEVIATION_PERCENT

/-- The execution price as the spec describes it (spec section 4.1, claim C4):
`order.limit_price` exactly when the order type carries a limit price and that
price is strictly positive, `current_price` in every other case.  This is the
spec-side definition, to be compared with `execPrice`, which is transcribed
from the source. -/
def specExecPrice (o : OrderDetails) (current_price : ℚ) : ℚ :=
  if isLimitType o.order_type = true ∧ o.limit_price > 0 then o.limit_price
  else current_price

/-! ## Strategy risk tracking: `BaseStrategy` (src/strategies/base_strategy.py)

`BaseStrategy` extends the third-party `backtesting.lib.TrailingStrategy`.
The state below carries the pieces of strategy-visible state the claims are
about: the risk parameters (class attributes, lines 22-30), the recorded
`entry_price` (`init`, line 43), and the open position together with the
running peak/trough price, both of which are owned by the external
backtesting engine (`self.position` and the trailing-stop bookkeeping of
`TrailingStrategy`). -/

/-- Direction of an open position (`position.is_long` / `position.is_short`). -/
inductive Direction
  | long
  | short
deriving DecidableEq

/-- Strategy-visible state of one `BaseStrategy` instance together with the
engine-owned position.  Defaults are the class-attribute defaults of
base_strategy.py (`take_profit_pct = 0.05`, `stop_loss_pct = 0.02`) and the
`init` assignment `entry_price = None`.  `peak` is the running favourable
extreme price used by the external trailing-stop mechanism. -/
structure StratState where
  take_profit_pct : ℚ := 5 / 100
  stop_loss_pct : ℚ := 2 / 100
  entry_price : Option ℚ := none
  position : Option Direction := none
  peak : ℚ := 0
deriving DecidableEq

/-- The take-profit block of `BaseStrategy.next` (base_strategy.py lines
46-71), run on the latest close price `close` (`self.data.Close[-1]`): when
`take_profit_pct > 0` and a position is open and an entry price is recorded,
a long position is closed if `close >= entry_price * (1 + take_profit_pct)`
and a short position if `close <= entry_price * (1 - take_profit_pct)`;
closing clears `entry_price` to `none`.  Returns the new state and whether a
close instruction was issued. -/
def tpStep (s : StratState) (close : ℚ) : StratState × Bool :=
  if 0 < s.take_profit_pct then
    match s.position, s.entry_price with
    | some Direction.long, some e =>
      if close ≥ e * (1 + s.take_profit_pct) then
        ({ s with position := none, entry_price := none }, true)
      else (s, false)
    | some Direction.short, some e =>
      if close ≤ e * (1 - s.take_profit_pct) then
        ({ s with position := none, entry_price := none }, true)
      else (s, false)
    | _, _ => (s, false)
  else (s, false)

/-- Modelled from the spec: the trailing-stop mechanism.  It is implemented by
the external `backtesting.lib.TrailingStrategy` / engine (base_strategy.py
only calls `self.set_trailing_sl(self.stop_loss_pct)` in `init` and
`super().next()` in `next`); no code of this repository runs when the stop
fires.  Per the spec, the stop for a long position sits
`trailing_stop_fraction` below the running peak (and moves only up), so a
breach closes the position when the price falls to or below
`peak * (1 - stop_loss_pct)`; symmetrically for a short position against the
running trough.  Because the close happens outside the repository's code,
the strategy's `entry_price` field is not touched here. -/
def trailStep (s : StratState) (close : ℚ) : StratState × Bool :=
  match s.position with
  | some Direction.long =>
    let newPeak := max s.peak close
    if close ≤ newPeak * (1 - s.stop_loss_pct) then
      ({ s with peak := newPeak, position := none }, true)
    else ({ s with peak := newPeak }, false)
  | some Direction.short =>
    let newTrough := min s.peak close
    if close ≥ newTrough * (1 + s.stop_loss_pct) then
      ({ s with peak := newTrough, position := none }, true)
    else ({ s with peak := newTrough }, false)
  | none => (s, false)

/-- One full market update on the latest close price: the take-profit block of
`BaseStrategy.next` runs first, then `super().next()` hands control to the
external trailing-stop machinery, which can only act on a position that is
still open.  Returns the new state and the number of close instructions
issued during the update. -/
def nextBar (s : StratState) (close : ℚ) : StratState × ℕ :=
  let s1 := tpStep s close
  let s2 := trailStep s1.1 close
  (s2.1, (if s1.2 then 1 else 0) + (if s2.2 then 1 else 0))

/-- Modelled from the spec: an explicit external close instruction (spec
section 4.3, transition OPEN to FLAT), e.g. a child strategy calling
`self.position.close()` directly.  The engine flattens the position; no
`BaseStrategy` code runs, so `entry_price` is left as it is. -/
def externalClose (s : StratState) : StratState :=
  { s with position := none }

/-- `BaseStrategy.calculate_position_size` (base_strategy.py lines 76-89):
returns the fixed equity fraction 0.1 on every call. -/
def calculate_position_size : ℚ := 1 / 10

/-- `BaseStrategy.buy_instrument` (base_strategy.py lines 104-110): buys with
size `calculate_position_size` (the engine opens a long position on fill) and
records `entry_price = self.data.Close[-1]`. -/
def buy_instrument (s : StratState) (close : ℚ) : StratState :=
  { s with position := some Direction.long, entry_price := some close }

/-- `BaseStrategy.sell_instrument` (base_strategy.py lines 112-118): sells
with size `calculate_position_size` (the engine opens a short position on
fill) and records `entry_price = self.data.Close[-1]`. -/
def sell_instrument (s : StratState) (close : ℚ) : StratState :=
  { s with position := some Direction.short, entry_price := some close }

/-- Modelled from the spec: the `size_factor` multiplier of the PositionSizer
(spec section 4.2).  No `size_factor` exists anywhere in the repository's
source; the spec says a configurable multiplier with default 1.0 scales the
base fraction returned by the default policy.  Its default value. -/
def size_factor_default : ℚ := 1

/-- Modelled from the spec: the base fraction returned by
`calculate_position_size`, scaled by the `size_factor` multiplier of spec
section 4.2 (absent from the source). -/
def scaled_position_fraction (size_factor : ℚ) : ℚ :=
  calculate_position_size * size_factor

/-! ## Commission-aware price estimation: `CustomBroker`
(src/src/backtesting_extensions.py) -/

/-- `CustomBroker._adjusted_price(size, price)` for a callable commission
model (backtesting_extensions.py lines 29-54).  `price = price or
self.last_price` resolves a `None` or zero price argument to the broker's
last price; then the commission amount for the signed size at the resolved
price is computed and the returned estimate is
`price + commission(size, price) / size`.  (The Python divides by `size`;
`size = 0` would raise there, while `ℚ` division by zero yields 0, so claims
about this function assume a nonzero size.) -/
def adjusted_price (commission : ℚ → ℚ → ℚ) (last_price : ℚ) (size : ℚ)
    (price : Option ℚ) : ℚ :=
  let p := match price with
    | none => last_price
    | some q => if q = 0 then last_price else q
  p + commission size p / size

end IbkrQuantCore

namespace IbkrQuantCore

/-! ## Theorems for claim C1 -/

/-- Claim C1: with the default SafetyLimits, every order whose quantity is at
most 100, whose estimated notional (execution price times quantity) is at most
5000, and which, when it is a limit-type order with positive limit price and
positive current price, deviates from the current price by at most the
fraction 5/100, passes `check_order_limits` with result `true` and no
raised error. -/
theorem check_order_limits_ok_of_within_limits (o : OrderDetails)
    (current_price : ℚ)
    (hq : o.quantity ≤ MAX_SHARES_PER_ORDER)
    (hn : execPrice o current_price * o.quantity ≤ MAX_DOLLAR_VALUE_PER_ORDER)
    (hd : isLimitType o.order_type = true → o.limit_price > 0 →
      current_price > 0 →
      |o.limit_price - current_price| / current_price ≤
        MAX_PRICE_DEVIATION_PERCENT) :
    check_order_limits o current_price = Except.ok true := by
  unfold check_order_limits
  split_ifs with h1 h2 h3 h4 h5
  · exact absurd h1 (not_lt.mpr hq)
  · exact absurd h2 (not_lt.mpr hn)
  · exact absurd h5 (not_lt.mpr (hd h3.1 h3.2 h4))
  · rfl
  · rfl
  · rfl

/-- Witness for C1: the spec scenario of a 10-share market order at price 150
(notional 1500) validates. -/
theorem check_order_limits_ok_of_within_limits_witness :
    check_order_limits
      { symbol := "AAPL", quantity := 10, order_type := "MKT" } 150 =
      Except.ok true :=
  check_order_limits_ok_of_within_limits
    { symbol := "AAPL", quantity := 10, order_type := "MKT" } 150
    (by norm_num [MAX_SHARES_PER_ORDER])
    (by simp [execPrice, isLimitType]; norm_num [MAX_DOLLAR_VALUE_PER_ORDER])
    (by intro h; simp [isLimitType] at h)

/-! ## Evaluation helpers for the concrete order types -/

theorem isLimitType_eval_MKT : isLimitType "MKT" = false := by decide

theorem isLimitType_eval_LMT : isLimitType "LMT" = true := by decide

theorem isLimitType_eval_STOP_LIMIT : isLimitType "STOP_LIMIT" = true := by
  decide

/-! ## Theorems for claim C2 -/

/-- Claim C2: for every order that violates exactly one of the three
thresholds, `check_order_limits` raises the violation kind corresponding to
that threshold (QuantityExceeded for the quantity check, NotionalExceeded for
the notional check, PriceDeviationExceeded for the deviation check) and never
a different kind, and the raised error carries the symbol, the offending
value, and the configured limit. -/
theorem check_order_limits_single_violation_kind (o : OrderDetails) (cp : ℚ) :
    (violQty o → ¬violNotional o cp → ¬violDev o cp →
      check_order_limits o cp = Except.error
        ⟨ViolationKind.QuantityExceeded, o.symbol, o.quantity,
          MAX_SHARES_PER_ORDER⟩)
    ∧ (¬violQty o → violNotional o cp → ¬violDev o cp →
      check_order_limits o cp = Except.error
        ⟨ViolationKind.NotionalExceeded, o.symbol, execPrice o cp * o.quantity,
          MAX_DOLLAR_VALUE_PER_ORDER⟩)
    ∧ (¬violQty o → ¬violNotional o cp → violDev o cp →
      check_order_limits o cp = Except.error
        ⟨ViolationKind.PriceDeviationExceeded, o.symbol,
          |o.limit_price - cp| / cp, MAX_PRICE_DEVIATION_PERCENT⟩) := by
  refine ⟨?_, ?_, ?_⟩
  · intro h1 _ _
    have hq : o.quantity > MAX_SHARES_PER_ORDER := h1
    unfold check_order_limits
    rw [if_pos hq]
  · intro h1 h2 _
    have hq : ¬o.quantity > MAX_SHARES_PER_ORDER := h1
    have hn : execPrice o cp * o.quantity > MAX_DOLLAR_VALUE_PER_ORDER := h2
    unfold check_order_limits
    rw [if_neg hq, if_pos hn]
  · intro h1 h2 h3
    obtain ⟨ha, hb, hc, hd⟩ := h3
    have hq : ¬o.quantity > MAX_SHARES_PER_ORDER := h1
    have hn : ¬execPrice o cp * o.quantity > MAX_DOLLAR_VALUE_PER_ORDER := h2
    unfold check_order_limits
    rw [if_neg hq, if_neg hn, if_pos (And.intro ha hb), if_pos hc, if_pos hd]

/-- Witness for C2: the order of quantity 101 at current price 1 violates only
the quantity threshold, and the raised error is QuantityExceeded carrying the
symbol, the offending quantity 101, and the limit 100. -/
theorem check_order_limits_single_violation_kind_witness :
    check_order_limits { quantity := 101 } 1 = Except.error
      ⟨ViolationKind.QuantityExceeded, "UNKNOWN", 101, MAX_SHARES_PER_ORDER⟩ :=
  (check_order_limits_single_violation_kind { quantity := 101 } 1).1
    (by norm_num [violQty, MAX_SHARES_PER_ORDER])
    (by simp [violNotional, execPrice, isLimitType_eval_MKT];
        norm_num [MAX_DOLLAR_VALUE_PER_ORDER])
    (by simp [violDev, isLimitType_eval_MKT])

/-! ## Theorems for claim C4 -/

/-- Counterexample for C4: the claim says the execution price equals
`current_price` for a limit-type order whose limit price is not strictly
positive, but the source (execution.py lines 51-53) only replaces a `None` or
zero limit price; a negative limit price is used as is.  At order type LMT
with limit price -1, quantity -5001 and current price 10 the code uses
execution price -1 (not 10), and the resulting estimated value
(-1) * (-5001) = 5001 makes the check raise NotionalExceeded, while with the
claimed execution price 10 the estimate 10 * (-5001) would have passed. -/
theorem check_order_limits_exec_price_counterexample :
    execPrice { quantity := -5001, order_type := "LMT", limit_price := -1 } 10 ≠
      specExecPrice
        { quantity := -5001, order_type := "LMT", limit_price := -1 } 10
    ∧ check_order_limits
        { quantity := -5001, order_type := "LMT", limit_price := -1 } 10 =
      Except.error ⟨ViolationKind.NotionalExceeded, "UNKNOWN", 5001,
        MAX_DOLLAR_VALUE_PER_ORDER⟩
    ∧ specExecPrice { quantity := -5001, order_type := "LMT", limit_price := -1 }
        10 * (-5001) ≤ MAX_DOLLAR_VALUE_PER_ORDER := by
  refine ⟨?_, ?_, ?_⟩
  · simp [execPrice, specExecPrice, isLimitType_eval_LMT]
    norm_num
  · simp [check_order_limits, execPrice, isLimitType_eval_LMT]
    norm_num [MAX_SHARES_PER_ORDER, MAX_DOLLAR_VALUE_PER_ORDER]
  · simp [specExecPrice, isLimitType_eval_LMT]
    norm_num [MAX_DOLLAR_VALUE_PER_ORDER]

/-- Claim C4 (amended): in the notional check of `check_order_limits`, the
execution price used for estimation equals `order.limit_price` exactly when
the order type is one of LMT, STOP_LIMIT and that limit price is nonzero
(present and different from 0), and equals `current_price` in every other
case (market-type orders, and limit-type orders whose limit price is absent
or equal to 0); given the quantity check passed, the check fails with
NotionalExceeded exactly when `execution_price * order.quantity >
max_notional`. -/
theorem check_order_limits_exec_price_notional (o : OrderDetails) (cp : ℚ)
    (hq : ¬violQty o) :
    execPrice o cp =
      (if isLimitType o.order_type = true ∧ o.limit_price ≠ 0 then
        o.limit_price else cp)
    ∧ ((∃ v, check_order_limits o cp = Except.error v ∧
          v.kind = ViolationKind.NotionalExceeded)
        ↔ execPrice o cp * o.quantity > MAX_DOLLAR_VALUE_PER_ORDER) := by
  have hq' : ¬o.quantity > MAX_SHARES_PER_ORDER := hq
  constructor
  · unfold execPrice
    cases hb : isLimitType o.order_type with
    | true =>
      by_cases hz : o.limit_price = 0
      · simp [hb, hz]
      · simp [hb, hz]
    | false =>
      simp [hb]
  · constructor
    · rintro ⟨v, hv, hk⟩
      unfold check_order_limits at hv
      split_ifs at hv with h1 h2 h3 h4
      · exact h1
      · injection hv with hv
        rw [← hv] at hk
        exact absurd hk (by simp)
    · intro hn
      refine ⟨⟨ViolationKind.NotionalExceeded, o.symbol,
        execPrice o cp * o.quantity, MAX_DOLLAR_VALUE_PER_ORDER⟩, ?_, rfl⟩
      unfold check_order_limits
      rw [if_neg hq', if_pos hn]

/-- Witness for C4 (amended): a STOP_LIMIT order with limit price 60 and
quantity 100 at current price 50 uses execution price 60, and its estimate
6000 exceeds the 5000 limit, so the check fails with NotionalExceeded. -/
theorem check_order_limits_exec_price_notional_witness :
    execPrice { quantity := 100, order_type := "STOP_LIMIT", limit_price := 60 } 50 =
      (if isLimitType "STOP_LIMIT" = true ∧ (60:ℚ) ≠ 0 then (60:ℚ) else 50)
    ∧ ((∃ v, check_order_limits { quantity := 100, order_type := "STOP_LIMIT", limit_price := 60 } 50 =
          Except.error v ∧ v.kind = ViolationKind.NotionalExceeded)
        ↔ execPrice { quantity := 100, order_type := "STOP_LIMIT", limit_price := 60 } 50 *
            (100:ℚ) > MAX_DOLLAR_VALUE_PER_ORDER) :=
  check_order_limits_exec_price_notional
    { quantity := 100, order_type := "STOP_LIMIT", limit_price := 60 } 50
    (by norm_num [violQty, MAX_SHARES_PER_ORDER])

/-! ## Theorems for claim C5 -/

/-- Claim C5: for every order and every current price at most 0,
`check_order_limits` never raises PriceDeviationExceeded: the deviation
sub-check, the only place dividing by the current price, is guarded by
`current_price > 0` and is skipped entirely when the current price is not
positive. -/
theorem check_order_limits_no_deviation_error_of_nonpos_price
    (o : OrderDetails) (cp : ℚ) (hcp : cp ≤ 0) (v : Violation)
    (he : check_order_limits o cp = Except.error v) :
    v.kind ≠ ViolationKind.PriceDeviationExceeded := by
  unfold check_order_limits at he
  split_ifs at he with h1 h2 h3 h4 h5
  · injection he with he
    rw [← he]
    simp
  · injection he with he
    rw [← he]
    simp
  · exact absurd h4 (not_lt.mpr hcp)

/-- Witness for C5: at current price 0 the order of quantity 101 is rejected,
and the rejection kind is QuantityExceeded, not PriceDeviationExceeded. -/
theorem check_order_limits_no_deviation_error_of_nonpos_price_witness :
    check_order_limits { quantity := 101 } 0 = Except.error
      ⟨ViolationKind.QuantityExceeded, "UNKNOWN", 101, MAX_SHARES_PER_ORDER⟩
    ∧ (⟨ViolationKind.QuantityExceeded, "UNKNOWN", 101,
        MAX_SHARES_PER_ORDER⟩ : Violation).kind ≠
      ViolationKind.PriceDeviationExceeded := by
  have he : check_order_limits { quantity := 101 } 0 = Except.error
      ⟨ViolationKind.QuantityExceeded, "UNKNOWN", 101,
        MAX_SHARES_PER_ORDER⟩ := by
    unfold check_order_limits
    rw [if_pos (by norm_num [MAX_SHARES_PER_ORDER])]
  exact ⟨he, check_order_limits_no_deviation_error_of_nonpos_price
    { quantity := 101 } 0 le_rfl _ he⟩

/-! ## Theorems for claim C10 -/

/-- Counterexample for C10: the claim says that for a non-positive quantity
and every current price, `check_order_limits` never raises NotionalExceeded
and market orders pass.  But a negative quantity times a negative current
price gives a positive estimated value: at quantity -100, order type MKT and
current price -100 the estimate is 10000 > 5000 and NotionalExceeded is
raised. -/
theorem check_order_limits_nonpositive_qty_counterexample :
    ({ quantity := -100, order_type := "MKT" } : OrderDetails).quantity ≤ 0
    ∧ check_order_limits { quantity := -100, order_type := "MKT" } (-100) =
      Except.error ⟨ViolationKind.NotionalExceeded, "UNKNOWN", 10000,
        MAX_DOLLAR_VALUE_PER_ORDER⟩ := by
  constructor
  · norm_num
  · simp [check_order_limits, execPrice, isLimitType]
    norm_num [MAX_SHARES_PER_ORDER, MAX_DOLLAR_VALUE_PER_ORDER]

/-- Claim C10 (amended): for every order whose quantity is missing or not
positive (a missing quantity defaults to 0), provided the current price and
the limit price are nonnegative, `check_order_limits` never raises
QuantityExceeded or NotionalExceeded, and for market-type (non-limit-type)
orders it returns true — degenerate or non-positive-size orders pass
validation rather than being rejected. -/
theorem check_order_limits_nonpositive_qty (o : OrderDetails) (cp : ℚ)
    (hq : o.quantity ≤ 0) (hcp : 0 ≤ cp) (hlp : 0 ≤ o.limit_price) :
    (∀ v, check_order_limits o cp = Except.error v →
      v.kind ≠ ViolationKind.QuantityExceeded ∧
        v.kind ≠ ViolationKind.NotionalExceeded)
    ∧ (isLimitType o.order_type = false →
        check_order_limits o cp = Except.ok true) := by
  have hq' : ¬o.quantity > MAX_SHARES_PER_ORDER := by
    unfold MAX_SHARES_PER_ORDER
    intro h
    linarith
  have hep : 0 ≤ execPrice o cp := by
    unfold execPrice
    cases hb : isLimitType o.order_type with
    | true =>
      by_cases hz : o.limit_price = 0
      · simp [hb, hz, hcp]
      · simp [hb, hz, hlp]
    | false =>
      by_cases hz : cp = 0
      · simp [hb, hz]
      · simp [hb, hz, hcp]
  have hn' : ¬execPrice o cp * o.quantity > MAX_DOLLAR_VALUE_PER_ORDER := by
    have : execPrice o cp * o.quantity ≤ 0 :=
      mul_nonpos_iff.mpr (Or.inl ⟨hep, hq⟩)
    unfold MAX_DOLLAR_VALUE_PER_ORDER
    intro h
    linarith
  constructor
  · intro v hv
    unfold check_order_limits at hv
    split_ifs at hv with h1 h2 h3
    · injection hv with hv
      rw [← hv]
      exact ⟨by simp, by simp⟩
  · intro hmkt
    unfold check_order_limits
    rw [if_neg hq', if_neg hn', if_neg (by simp [hmkt])]

/-- Witness for C10 (amended): the fully-defaulted order (quantity 0, market
type) validates at current price 0. -/
theorem check_order_limits_nonpositive_qty_witness :
    check_order_limits {} 0 = Except.ok true :=
  (check_order_limits_nonpositive_qty {} 0 le_rfl le_rfl le_rfl).2
    (by decide)

/-! ## Helper lemmas about the strategy steps -/

/-- The take-profit block either closes the position (clearing both the
position and the recorded entry price) or leaves the state untouched. -/
theorem tpStep_cases (s : StratState) (close : ℚ) :
    tpStep s close = ({ s with position := none, entry_price := none }, true)
    ∨ tpStep s close = (s, false) := by
  rcases hp : s.position with _ | d <;> rcases he : s.entry_price with _ | e
  · right
    simp [tpStep, hp, he]
  · right
    simp [tpStep, hp, he]
  · right
    rcases d <;> simp [tpStep, hp, he]
  · rcases d <;> (simp only [tpStep, hp, he]; split_ifs <;> simp)

/-- The external trailing-stop machinery does nothing when no position is
open. -/
theorem trailStep_of_no_position (s : StratState) (close : ℚ)
    (h : s.position = none) : trailStep s close = (s, false) := by
  unfold trailStep
  rw [h]

/-- When the long take-profit condition holds on an open long position with a
recorded entry price, the take-profit block closes it. -/
theorem tpStep_closes_long (s : StratState) (close e : ℚ)
    (he : s.entry_price = some e) (hp : s.position = some Direction.long)
    (h0 : 0 < s.take_profit_pct) (hc : close ≥ e * (1 + s.take_profit_pct)) :
    tpStep s close =
      ({ s with position := none, entry_price := none }, true) := by
  simp [tpStep, hp, he, h0, hc]

/-- When the short take-profit condition holds on an open short position with
a recorded entry price, the take-profit block closes it. -/
theorem tpStep_closes_short (s : StratState) (close e : ℚ)
    (he : s.entry_price = some e) (hp : s.position = some Direction.short)
    (h0 : 0 < s.take_profit_pct) (hc : close ≤ e * (1 - s.take_profit_pct)) :
    tpStep s close =
      ({ s with position := none, entry_price := none }, true) := by
  simp [tpStep, hp, he, h0, hc]

/-! ## Theorems for claim C3 -/

/-- Counterexample for C3: the claim says every close of an open position —
including a trailing-stop breach — resets entry_price to none.  But the
trailing-stop close is performed by the external engine and no code of
base_strategy.py runs there: starting long with entry price 100, running
peak 100, take_profit_pct 0.05 and stop_loss_pct 0.02, a bar at price 97
breaches the trailing stop (97 is at most 98 = 100 * (1 - 0.02)), one close
is issued and the position goes flat, yet entry_price is still 100, not
none. -/
theorem trailing_close_keeps_entry_counterexample :
    (nextBar ⟨5/100, 2/100, some 100, some Direction.long, 100⟩ 97).2 = 1
    ∧ (nextBar ⟨5/100, 2/100, some 100, some Direction.long, 100⟩
        97).1.position = none
    ∧ (nextBar ⟨5/100, 2/100, some 100, some Direction.long, 100⟩
        97).1.entry_price = some 100 := by
  norm_num [nextBar, tpStep, trailStep]

/-- Claim C3 (amended): only the take-profit close path of
`BaseStrategy.next` resets entry_price to none; a close performed outside the
strategy's code (trailing-stop breach handled by the engine, or an explicit
external close) leaves entry_price set until the next entry fill overwrites
it.  Stated for the take-profit path: whenever the take-profit block issues a
close, the resulting state has entry_price = none (and the position is
flat). -/
theorem tpStep_close_clears_entry (s : StratState) (close : ℚ)
    (h : (tpStep s close).2 = true) :
    (tpStep s close).1.entry_price = none
    ∧ (tpStep s close).1.position = none := by
  rcases tpStep_cases s close with hc | hc
  · rw [hc]
    simp
  · rw [hc] at h
    simp at h

/-- Witness for C3 (amended): a long position entered at 100 with take-profit
fraction 0.05 is closed by the take-profit block at price 105, and the
post-close state has entry_price = none. -/
theorem tpStep_close_clears_entry_witness :
    (tpStep ⟨5/100, 2/100, some 100, some Direction.long, 100⟩ 105).2 = true
    ∧ (tpStep ⟨5/100, 2/100, some 100, some Direction.long, 100⟩
        105).1.entry_price = none := by
  have h : (tpStep ⟨5/100, 2/100, some 100, some Direction.long, 100⟩
      105).2 = true := by
    norm_num [tpStep]
  exact ⟨h, (tpStep_close_clears_entry _ _ h).1⟩

/-! ## Theorems for claim C6 -/

/-- Claim C6: on every update of an open position with a recorded entry price
and take_profit_pct > 0, the take-profit close fires for a long position
exactly when the latest price is at least entry_price * (1 +
take_profit_pct), and for a short position exactly when it is at most
entry_price * (1 - take_profit_pct); and when take_profit_pct ≤ 0 the
take-profit never issues a close, for any state and price. -/
theorem tpStep_take_profit_iff (s : StratState) (close e : ℚ)
    (he : s.entry_price = some e) :
    (0 < s.take_profit_pct →
      (s.position = some Direction.long →
        ((tpStep s close).2 = true ↔
          close ≥ e * (1 + s.take_profit_pct)))
      ∧ (s.position = some Direction.short →
        ((tpStep s close).2 = true ↔
          close ≤ e * (1 - s.take_profit_pct))))
    ∧ (s.take_profit_pct ≤ 0 → (tpStep s close).2 = false) := by
  constructor
  · intro h0
    constructor
    · intro hp
      simp only [tpStep, hp, he, if_pos h0]
      split_ifs with hc
      · simpa using hc
      · simpa using hc
    · intro hp
      simp only [tpStep, hp, he, if_pos h0]
      split_ifs with hc
      · simpa using hc
      · simpa using hc
  · intro h0
    have h0' : ¬(0 < s.take_profit_pct) := not_lt.mpr h0
    simp [tpStep, h0']

/-- Witness for C6: for a long position entered at 100 with take-profit
fraction 0.05, the close fires at price `close` exactly when
close ≥ 100 * (1 + 0.05) = 105. -/
theorem tpStep_take_profit_iff_witness :
    (tpStep ⟨5/100, 2/100, some 100, some Direction.long, 0⟩ 105).2 = true ↔
      (105:ℚ) ≥ 100 * (1 + 5/100) :=
  ((tpStep_take_profit_iff ⟨5/100, 2/100, some 100, some Direction.long, 0⟩
      105 100 rfl).1 (by norm_num)).1 rfl

/-! ## Theorems for claim C7 -/

/-- Claim C7: in every single market update at most one close instruction is
issued — when both the trailing-stop and the take-profit conditions hold the
take-profit path closes first and the trailing stop then has no open
position to act on, so exactly one close is emitted, never two; in
particular, a long position with entry price 100 and take-profit fraction
0.05 seeing the price rise to 105 emits exactly one close. -/
theorem nextBar_close_count (s : StratState) (close : ℚ) :
    (nextBar s close).2 ≤ 1
    ∧ (∀ e, s.entry_price = some e → 0 < s.take_profit_pct →
        (s.position = some Direction.long →
          close ≥ e * (1 + s.take_profit_pct) → (nextBar s close).2 = 1)
        ∧ (s.position = some Direction.short →
          close ≤ e * (1 - s.take_profit_pct) → (nextBar s close).2 = 1))
    ∧ (nextBar ⟨5/100, 2/100, some 100, some Direction.long, 100⟩ 105).2
        = 1 := by
  have ht := trailStep_of_no_position { s with position := none, entry_price := none } close rfl
  refine ⟨?_, ?_, ?_⟩
  · rcases tpStep_cases s close with hc | hc
    · simp only [nextBar, hc, ht]
      simp
    · simp only [nextBar, hc]
      rcases h2 : (trailStep s close).2 <;> simp [h2]
  · intro e he h0
    constructor
    · intro hp hcond
      simp only [nextBar, tpStep_closes_long s close e he hp h0 hcond, ht]
      simp
    · intro hp hcond
      simp only [nextBar, tpStep_closes_short s close e he hp h0 hcond, ht]
      simp
  · norm_num [nextBar, tpStep, trailStep]

/-- Witness for C7: the spec scenario — long position entered at 100,
take-profit fraction 0.05, price rises to 105 — emits exactly one close in
that update. -/
theorem nextBar_close_count_witness :
    (nextBar ⟨5/100, 2/100, some 100, some Direction.long, 100⟩ 105).2
      = 1 :=
  ((nextBar_close_count ⟨5/100, 2/100, some 100, some Direction.long, 100⟩
      105).2.1 100 rfl (by norm_num)).1 rfl (by norm_num)

/-! ## Theorems for claim C8 -/

/-- Claim C8: for every signed size s ≠ 0 (positive for buy, negative for
sell) and explicitly given nonzero raw price p, the commission-adjusted price
computed by `CustomBroker._adjusted_price` with a callable commission model
equals p + commission(s, p) / s; when the commission amount is positive, the
adjustment raises the effective price for a buy (s > 0) and lowers it for a
sell (s < 0). -/
theorem adjusted_price_eq (commission : ℚ → ℚ → ℚ) (last s p : ℚ)
    (_hs : s ≠ 0) (hp : p ≠ 0) :
    adjusted_price commission last s (some p) = p + commission s p / s
    ∧ (0 < commission s p →
        (0 < s → p < adjusted_price commission last s (some p))
        ∧ (s < 0 → adjusted_price commission last s (some p) < p)) := by
  have h1 : adjusted_price commission last s (some p) =
      p + commission s p / s := by
    simp [adjusted_price, hp]
  refine ⟨h1, fun hcomm => ⟨fun hspos => ?_, fun hsneg => ?_⟩⟩
  · rw [h1]
    have := div_pos hcomm hspos
    linarith
  · rw [h1]
    have := div_neg_of_pos_of_neg hcomm hsneg
    linarith

/-- Witness for C8: with the constant commission model returning 1, last
price 0, size 2 and raw price 10, the adjusted price is 10 + 1/2, which is
above the raw price (a buy pays more). -/
theorem adjusted_price_eq_witness :
    adjusted_price (fun _ _ => 1) 0 2 (some 10) = 10 + (1:ℚ) / 2
    ∧ (10:ℚ) < adjusted_price (fun _ _ => 1) 0 2 (some 10) :=
  ⟨(adjusted_price_eq (fun _ _ => 1) 0 2 10 (by norm_num) (by norm_num)).1,
    ((adjusted_price_eq (fun _ _ => 1) 0 2 10 (by norm_num)
      (by norm_num)).2 (by norm_num)).1 (by norm_num)⟩

/-! ## Theorems for claim C9 -/

/-- Counterexample for C9: the claim says the fraction is within (0, 1] for
any valid size_factor > 0, but scaling the base fraction 0.1 by the
multiplier (itself only described in the spec — no size_factor exists in the
source) leaves the interval as soon as size_factor exceeds 10:
at size_factor = 20 the scaled fraction is 2 > 1. -/
theorem scaled_position_fraction_counterexample :
    (0:ℚ) < 20 ∧ ¬scaled_position_fraction 20 ≤ 1 := by
  norm_num [scaled_position_fraction, calculate_position_size]

/-- Claim C9 (amended): the default sizing policy returns the fixed equity
fraction 0.1 on every call; the scaled fraction lies within (0, 1] for every
size_factor with 0 < size_factor ≤ 10; and the default multiplier 1.0 leaves
the base fraction unchanged. -/
theorem position_fraction_bounds (size_factor : ℚ) (h1 : 0 < size_factor)
    (h2 : size_factor ≤ 10) :
    calculate_position_size = 1 / 10
    ∧ 0 < scaled_position_fraction size_factor
    ∧ scaled_position_fraction size_factor ≤ 1
    ∧ scaled_position_fraction size_factor_default =
        calculate_position_size := by
  refine ⟨rfl, ?_, ?_, ?_⟩
  · unfold scaled_position_fraction calculate_position_size
    positivity
  · unfold scaled_position_fraction calculate_position_size
    linarith
  · unfold scaled_position_fraction size_factor_default
    ring

/-- Witness for C9 (amended): at the default size_factor 1 the fraction is
0.1, which is positive and at most 1. -/
theorem position_fraction_bounds_witness :
    calculate_position_size = 1 / 10
    ∧ 0 < scaled_position_fraction 1
    ∧ scaled_position_fraction 1 ≤ 1
    ∧ scaled_position_fraction size_factor_default =
        calculate_position_size :=
  position_fraction_bounds 1 (by norm_num) (by norm_num)

end IbkrQuantCore
